import Mathlib

/-!
Verification of the dlaudio audio-preprocessing pipeline.

The definitions below are a shallow embedding of the two notebooks:
`audio_preprocessing.ipynb` (frame grid, frame extraction, CQT storage)
and the GTZAN conversion notebook (the `read` ingestion function).
Waveforms are modelled as `List ℚ`; the float arithmetic of the frame
grid cell (`float(Nsamples) / na`) is modelled by exact rational
arithmetic, whose floor agrees with the binary64 computation on all
inputs of the corpus's magnitude.
-/

namespace DLAudio

/-- `N1 = int(np.floor(float(Nsamples) / na))` — aligned frame count. -/
def N1 (S na : ℕ) : ℤ := ⌊(S : ℚ) / na⌋

/-- `N2 = int(np.floor(float(Nsamples) / na - 0.5))` — shifted frame count. -/
def N2 (S na : ℕ) : ℤ := ⌊(S : ℚ) / na - 1/2⌋

/-- `Nframes = min(N1, N2)` — the frame count used for sizing. -/
def Nframes (S na : ℕ) : ℤ := min (N1 S na) (N2 S na)

/-- `Nframes` as a natural number, used where the value sizes an array
axis. The output cell (`allocOutput`) only reaches it after rejecting a
negative `Nframes`, so the `toNat` is exact wherever it is used. -/
def NframesNat (S na : ℕ) : ℕ := (Nframes S na).toNat

/-- Python slice `w[a:b]` on a list. -/
def pySlice (w : List ℚ) (a b : ℕ) : List ℚ := (w.drop a).take (b - a)

/-- Row-major reshape of the front of a list into `F` rows of `na` entries:
models `np.reshape(y[:na*F], (F, na), order='C')` row by row. -/
def chunks (na : ℕ) : ℕ → List ℚ → List (List ℚ)
  | 0, _ => []
  | F + 1, l => l.take na :: chunks na F (l.drop na)

/-- `extractFrames` (§4.2): reshape the first `na*F` samples after `shift`
into an `F × na` row-major array, as the notebook's
`np.reshape(y[shift:][:na*Nframes], (Nframes, na), order='C')`. -/
def extractFrames (w : List ℚ) (na F shift : ℕ) : List (List ℚ) :=
  chunks na F ((w.drop shift).take (na * F))

/-- Column count of the CQT. The transform itself is external (`librosa.cqt`,
out of scope per §1); the spec's contract §4.3 fixes its output to
`M = floor(len(waveform)/na) + 1` columns with `hop_length = na`. -/
def cqtCols (len na : ℕ) : ℕ := len / na + 1

/-- `librosa.cqt(y, ...)[:, :-1].T`: given the transform's output as a list
of time columns, drop the last column; after the transpose, stored row `i`
is column `i` of the transform. -/
def storedSpectrum (cols : List (List ℚ)) : List (List ℚ) := cols.dropLast

/-- Errors the notebook setup cells can actually raise. The spec's
`InvalidConfiguration` taxonomy does not occur in the code: the frame-grid
cell can only fail with Python's ZeroDivisionError at `na = 0`, and the
output cell's `create_dataset` raises on a negative `Nframes` dimension. -/
inductive PipeError where
  | zeroDivision : PipeError
  | negativeDimension : PipeError
  deriving DecidableEq

/-- The frame-grid cell: computes `(N1, N2, Nframes)` with no validation. -/
def gridCalc (S na : ℕ) : Except PipeError (ℤ × ℤ × ℤ) :=
  if na = 0 then .error .zeroDivision
  else .ok (N1 S na, N2 S na, Nframes S na)

/-- Dataset creation in the output cell:
`create_dataset('Xa', (Ngenres, Nclips, Nframes, 2, na))` and
`create_dataset('Xs', (Ngenres, Nclips, Nframes, 2, ns))`. The code passes
`Nframes` as a plain int; `h5py` raises on a negative dimension, otherwise
both shapes are created. -/
def allocOutput (Ngenres Nclips S na ns : ℕ) :
    Except PipeError (List ℕ × List ℕ) :=
  if Nframes S na < 0 then .error .negativeDimension
  else .ok ([Ngenres, Nclips, NframesNat S na, 2, na],
            [Ngenres, Nclips, NframesNat S na, 2, ns])

/-- Outcome of the setup cells, recording whether the output HDF5 file was
(re-)created on disk before any later failure. -/
structure SetupResult where
  fileCreated : Bool
  result : Except PipeError (List ℕ × List ℕ)

/-- The setup cells in notebook order: the frame-grid cell runs first; if
it succeeds, the output HDF5 file is removed and re-created
unconditionally (`h5py.File(filename, 'w')`), and only then are the two
datasets allocated. -/
def pipelineSetupTrace (Ngenres Nclips S na ns : ℕ) : SetupResult :=
  match gridCalc S na with
  | .error e => ⟨false, .error e⟩
  | .ok _ => ⟨true, allocOutput Ngenres Nclips S na ns⟩

/-- Final outcome of the setup cells. -/
def pipelineSetup (Ngenres Nclips S na ns : ℕ) :
    Except PipeError (List ℕ × List ℕ) :=
  (pipelineSetupTrace Ngenres Nclips S na ns).result

/-- GTZAN corpus constants from the conversion notebook's `gtzan` class. -/
def gtzanSr : ℕ := 22050

/-- Samples kept per clip after truncation. -/
def gtzanNsamples : ℕ := 660000

/-- Errors raised by the conversion notebook's `read`. -/
inductive ReadError where
  | wrongSampleRate : ReadError
  | tooShort : ReadError
  deriving DecidableEq

/-- `read(genre, clip)` of the conversion notebook: load a clip, reject a
wrong sampling rate or a short file, truncate to `gtzan.Nsamples`. -/
def read (y : List ℚ) (sr : ℕ) : Except ReadError (List ℚ) :=
  if sr ≠ gtzanSr then .error .wrongSampleRate
  else if y.length < gtzanNsamples then .error .tooShort
  else .ok (y.take gtzanNsamples)

/-- The four payloads `process` writes for one `(genre, clip)`. -/
structure ClipSlab where
  aligned : List (List ℚ)
  shifted : List (List ℚ)
  alignedSpec : List (List ℚ)
  shiftedSpec : List (List ℚ)
  deriving DecidableEq

/-- Runtime errors `process` can hit, in the order the statements run. -/
inductive ProcError where
  | reshapeError : ProcError
  | indexError : ProcError
  | assertFailed : ProcError
  | shapeMismatch : ProcError
  deriving DecidableEq

/-- The notebook's `process(genre, clip)` for one clip `y1`, with the
verification index `i` (drawn as `int(floor(Nframes * uniform()))`) and the
two CQT outputs (external transform) passed as column lists:
reshape both grids, verify row `i` against direct slices of `y1`,
then store both spectrograms with the last column dropped. -/
def processClip (y1 : List ℚ) (na F i : ℕ) (cqt1 cqt2 : List (List ℚ)) :
    Except ProcError ClipSlab :=
  if y1.length < na * F ∨ (y1.drop (na / 2)).length < na * F then
    .error .reshapeError
  else
    match (chunks na F (y1.take (na * F)))[i]?,
          (chunks na F ((y1.drop (na / 2)).take (na * F)))[i]? with
    | some ra, some rs =>
      if ra = pySlice y1 (i * na) (i * na + na) ∧
         rs = pySlice y1 (na / 2 + i * na) (na / 2 + i * na + na) then
        if (storedSpectrum cqt1).length ≠ F ∨ (storedSpectrum cqt2).length ≠ F then
          .error .shapeMismatch
        else
          .ok ⟨chunks na F (y1.take (na * F)),
               chunks na F ((y1.drop (na / 2)).take (na * F)),
               storedSpectrum cqt1, storedSpectrum cqt2⟩
      else .error .assertFailed
    | _, _ => .error .indexError

/-- The driver loop: `for genre in range(Ngenres): for clip in range(Nclips):
process(genre, clip)`, aborting on the first uncaught error. `clips` is the
clip store, `choice` the verification index drawn inside each `process`
call, and `cqtFn` the external transform as a pure function. -/
def runPipeline (Ngenres Nclips : ℕ) (clips : ℕ → ℕ → List ℚ) (na F : ℕ)
    (choice : ℕ → ℕ → ℕ) (cqtFn : List ℚ → List (List ℚ)) :
    Except ProcError (List (List ClipSlab)) :=
  (List.range Ngenres).mapM fun g =>
    (List.range Nclips).mapM fun c =>
      processClip (clips g c) na F (choice g c)
        (cqtFn (clips g c)) (cqtFn ((clips g c).drop (na / 2)))

/-- The aligned count is the natural-number division `S / na`. -/
lemma N1_eq (S na : ℕ) : N1 S na = ((S / na : ℕ) : ℤ) :=
  Rat.floor_natCast_div_natCast S na

/-- The shifted count is the natural-number division `(2*S - na) / (2*na)`. -/
lemma N2_eq (S na : ℕ) (h : 0 < na) (h2 : na ≤ 2 * S) :
    N2 S na = (((2 * S - na) / (2 * na) : ℕ) : ℤ) := by
  have hna : (na : ℚ) ≠ 0 := Nat.cast_ne_zero.2 h.ne'
  have key : (S : ℚ) / na - 1/2 = (((2 * S - na : ℕ) : ℚ)) / (((2 * na : ℕ) : ℚ)) := by
    push_cast [Nat.cast_sub h2]
    field_simp
    ring
  unfold N2
  rw [key]
  exact Rat.floor_natCast_div_natCast (2 * S - na) (2 * na)

/-- Subtracting one half lowers the floor by at most one. -/
lemma floor_sub_one_le_floor_sub_half (x : ℚ) : ⌊x⌋ - 1 ≤ ⌊x - 1/2⌋ := by
  rw [Int.le_floor]
  push_cast
  have := Int.floor_le x
  linarith

/-- Subtracting one half never raises the floor. -/
lemma floor_sub_half_le_floor (x : ℚ) : ⌊x - 1/2⌋ ≤ ⌊x⌋ :=
  Int.floor_le_floor (by linarith)

/-- The two floors agree exactly when the fractional part is at least one half. -/
lemma floor_sub_half_eq_iff (x : ℚ) : ⌊x - 1/2⌋ = ⌊x⌋ ↔ 1/2 ≤ Int.fract x := by
  constructor
  · intro h
    have h1 : ((⌊x⌋ : ℚ)) ≤ x - 1/2 := by
      rw [← h]; exact Int.floor_le _
    have : Int.fract x = x - ⌊x⌋ := rfl
    linarith
  · intro h
    have hfr : Int.fract x = x - ⌊x⌋ := rfl
    refine le_antisymm (floor_sub_half_le_floor x) ?_
    rw [Int.le_floor]
    linarith

/-- Corpus evaluation: `N1 660000 1024 = 644`. -/
lemma N1_corpus : N1 660000 1024 = 644 := by
  rw [N1_eq]; decide

/-- Corpus evaluation: `N2 660000 1024 = 644`. -/
lemma N2_corpus : N2 660000 1024 = 644 := by
  rw [N2_eq 660000 1024 (by decide) (by decide)]; decide

/-- Corpus evaluation: `Nframes 660000 1024 = 644`. -/
lemma Nframes_corpus : Nframes 660000 1024 = 644 := by
  unfold Nframes
  rw [N1_corpus, N2_corpus]
  decide

/-- Corpus evaluation, natural-number form. -/
lemma NframesNat_corpus : NframesNat 660000 1024 = 644 := by
  unfold NframesNat
  rw [Nframes_corpus]
  decide

/-- Short-corpus evaluation: at 512 samples and frame size 1024 the grid is empty. -/
lemma Nframes_short : Nframes 512 1024 = 0 := by
  unfold Nframes
  rw [N1_eq, N2_eq 512 1024 (by decide) (by decide)]
  decide

lemma chunks_length (na F : ℕ) (l : List ℚ) : (chunks na F l).length = F := by
  induction F generalizing l with
  | zero => rfl
  | succ F ih => simp [chunks, ih]

/-- Row `i` of the reshape is the block of `na` entries starting at `i*na`. -/
lemma chunks_getElem? (na F i : ℕ) (l : List ℚ) (h : i < F) :
    (chunks na F l)[i]? = some ((l.drop (i * na)).take na) := by
  induction F generalizing i l with
  | zero => omega
  | succ F ih =>
    cases i with
    | zero => simp [chunks]
    | succ i =>
      have hi : i < F := by omega
      simp only [chunks, List.getElem?_cons_succ, ih i (l.drop na) hi,
        List.drop_drop]
      congr 2
      ring_nf

/-- Row `i` of the extracted frame array is the direct slice of the source
at offset `shift + i*na`. -/
lemma extractFrames_getElem? (w : List ℚ) (na F shift i : ℕ) (h : i < F) :
    (extractFrames w na F shift)[i]? = some ((w.drop (shift + i * na)).take na) := by
  unfold extractFrames
  rw [chunks_getElem? na F i _ h, List.drop_take, List.take_take]
  have h1 : i * na + na ≤ na * F :=
    calc i * na + na = (i + 1) * na := by ring
      _ ≤ F * na := Nat.mul_le_mul_right na h
      _ = na * F := Nat.mul_comm F na
  have hmin : min na (na * F - i * na) = na := by omega
  rw [hmin, List.drop_drop]

/-- For any in-range verification index, `process` runs to completion and
writes the same slab: both reshape checks pass, the random-index assertion
holds, and the stored data does not depend on the drawn index. -/
lemma processClip_ok (y1 : List ℚ) (na F i : ℕ) (cqt1 cqt2 : List (List ℚ))
    (hi : i < F) (hlen : na / 2 + na * F ≤ y1.length)
    (hc1 : (storedSpectrum cqt1).length = F)
    (hc2 : (storedSpectrum cqt2).length = F) :
    processClip y1 na F i cqt1 cqt2 =
      .ok ⟨chunks na F (y1.take (na * F)),
           chunks na F ((y1.drop (na / 2)).take (na * F)),
           storedSpectrum cqt1, storedSpectrum cqt2⟩ := by
  have hnot : ¬(y1.length < na * F ∨ (y1.drop (na / 2)).length < na * F) := by
    push_neg
    simp only [List.length_drop]
    omega
  have ha : (chunks na F (y1.take (na * F)))[i]? =
      some ((y1.drop (i * na)).take na) := by
    have h0 := extractFrames_getElem? y1 na F 0 i hi
    simpa [extractFrames] using h0
  have hs : (chunks na F ((y1.drop (na / 2)).take (na * F)))[i]? =
      some ((y1.drop (na / 2 + i * na)).take na) :=
    extractFrames_getElem? y1 na F (na / 2) i hi
  have hra : (y1.drop (i * na)).take na = pySlice y1 (i * na) (i * na + na) := by
    simp [pySlice]
  have hrs : (y1.drop (na / 2 + i * na)).take na
      = pySlice y1 (na / 2 + i * na) (na / 2 + i * na + na) := by
    simp [pySlice]
  unfold processClip
  rw [if_neg hnot, ha, hs]
  simp only [hra, hrs, and_self, if_true, hc1, hc2, ne_eq, not_true_eq_false,
    or_self, if_false]

/-- The setup cells on the corpus parameters allocate 644-frame datasets. -/
lemma pipelineSetup_corpus :
    pipelineSetup 2 3 660000 1024 96 =
      Except.ok ([2, 3, 644, 2, 1024], [2, 3, 644, 2, 96]) := by
  have hg : gridCalc 660000 1024 =
      .ok (N1 660000 1024, N2 660000 1024, Nframes 660000 1024) := by
    unfold gridCalc
    rw [if_neg (by decide)]
  unfold pipelineSetup pipelineSetupTrace
  rw [hg]
  show allocOutput 2 3 660000 1024 96 = _
  unfold allocOutput
  rw [if_neg (by rw [Nframes_corpus]; decide), NframesNat_corpus]

/-- C1: the spec's end-to-end example claims `N2 = 643` and
`frame_count_used = 643` for `samples_per_clip = 660000`, `na = 1024`; the
code computes `N2 = floor(644.53125 - 0.5) = 644`, so the frame count and
both output shapes use 644, not 643. -/
theorem corpus_example_643_false :
    N2 660000 1024 ≠ 643 ∧ Nframes 660000 1024 ≠ 643 ∧
    pipelineSetup 2 3 660000 1024 96 ≠
      Except.ok ([2, 3, 643, 2, 1024], [2, 3, 643, 2, 96]) := by
  refine ⟨by rw [N2_corpus]; decide, by rw [Nframes_corpus]; decide, ?_⟩
  rw [pipelineSetup_corpus]
  simp

/-- C1 (amended): with `genre_count = 2`, `clips_per_genre = 3`,
`samples_per_clip = 660000`, `na = 1024` the code yields `N1 = 644`,
`N2 = 644`, `frame_count_used = 644`, and allocates
`Xa : (2, 3, 644, 2, 1024)` and `Xs : (2, 3, 644, 2, 96)`. -/
theorem corpus_frame_grid_and_shapes :
    N1 660000 1024 = 644 ∧ N2 660000 1024 = 644 ∧ Nframes 660000 1024 = 644 ∧
    pipelineSetup 2 3 660000 1024 96 =
      Except.ok ([2, 3, 644, 2, 1024], [2, 3, 644, 2, 96]) :=
  ⟨N1_corpus, N2_corpus, Nframes_corpus, pipelineSetup_corpus⟩

/-- C2: for every positive `na` and `samples_per_clip ≥ na` the frame grid
cell returns `N1 = floor(S/na)` (equal to the natural division `S / na`),
`N2 = floor(S/na - 0.5)` (equal to `(2S - na) / (2na)`), and
`frame_count_used = min(N1, N2)`, a non-negative integer. -/
theorem frameGrid_formulas_nonneg (S na : ℕ) (h : 0 < na) (h2 : na ≤ S) :
    N1 S na = ((S / na : ℕ) : ℤ) ∧
    N2 S na = (((2 * S - na) / (2 * na) : ℕ) : ℤ) ∧
    Nframes S na = min (N1 S na) (N2 S na) ∧
    0 ≤ Nframes S na := by
  refine ⟨N1_eq S na, N2_eq S na h (by omega), rfl, ?_⟩
  rw [Nframes, N1_eq, N2_eq S na h (by omega)]
  exact le_min (Int.natCast_nonneg _) (Int.natCast_nonneg _)

/-- C2 witness at the corpus parameters. -/
theorem frameGrid_formulas_nonneg_witness :
    N1 660000 1024 = ((660000 / 1024 : ℕ) : ℤ) ∧
    N2 660000 1024 = (((2 * 660000 - 1024) / (2 * 1024) : ℕ) : ℤ) ∧
    Nframes 660000 1024 = min (N1 660000 1024) (N2 660000 1024) ∧
    0 ≤ Nframes 660000 1024 :=
  frameGrid_formulas_nonneg 660000 1024 (by decide) (by decide)

/-- C10: the two counts satisfy `N1 - 1 ≤ N2 ≤ N1`, so `min(N1, N2) = N2`
always — the chosen frame count is the shifted-grid count — and the counts
agree exactly when the fractional part of `S/na` is at least one half. -/
theorem N2_min_and_fract (S na : ℕ) (h : 0 < na) (h2 : na ≤ S) :
    N1 S na - 1 ≤ N2 S na ∧ N2 S na ≤ N1 S na ∧
    min (N1 S na) (N2 S na) = N2 S na ∧
    Nframes S na = N2 S na ∧
    (N2 S na = N1 S na ↔ 1/2 ≤ Int.fract ((S : ℚ) / na)) := by
  have hle : N2 S na ≤ N1 S na := floor_sub_half_le_floor _
  have hge : N1 S na - 1 ≤ N2 S na := floor_sub_one_le_floor_sub_half _
  have hmin : min (N1 S na) (N2 S na) = N2 S na := min_eq_right hle
  exact ⟨hge, hle, hmin, hmin, floor_sub_half_eq_iff _⟩

/-- C10 witness at the corpus parameters. -/
theorem N2_min_and_fract_witness :
    N1 660000 1024 - 1 ≤ N2 660000 1024 ∧ N2 660000 1024 ≤ N1 660000 1024 ∧
    min (N1 660000 1024) (N2 660000 1024) = N2 660000 1024 ∧
    Nframes 660000 1024 = N2 660000 1024 ∧
    (N2 660000 1024 = N1 660000 1024 ↔
      1/2 ≤ Int.fract ((660000 : ℚ) / 1024)) :=
  N2_min_and_fract 660000 1024 (by decide) (by decide)

/-- C4: with `frame_count_used = min(N1, N2)`, both grids stay inside the
clip: `frame_count_used * na ≤ S` and
`floor(na/2) + frame_count_used * na ≤ S`, so no slice reads past the end
and the tail is discarded rather than padded. -/
theorem frames_within_bounds (S na : ℕ) (h : 0 < na) (h2 : na ≤ S) :
    Nframes S na * na ≤ (S : ℤ) ∧
    ((na / 2 : ℕ) : ℤ) + Nframes S na * na ≤ (S : ℤ) := by
  have h2na : na ≤ 2 * S := by omega
  have hN2 : Nframes S na ≤ (((2 * S - na) / (2 * na) : ℕ) : ℤ) := by
    rw [Nframes, N2_eq S na h h2na]
    exact min_le_right _ _
  have hqmul : 2 * ((2 * S - na) / (2 * na) * na) ≤ 2 * S - na :=
    calc 2 * ((2 * S - na) / (2 * na) * na)
        = (2 * S - na) / (2 * na) * (2 * na) := by ring
      _ ≤ 2 * S - na := Nat.div_mul_le_self _ _
  have hnat : na / 2 + (2 * S - na) / (2 * na) * na ≤ S := by
    set A := (2 * S - na) / (2 * na) * na with hA
    omega
  have hmul : Nframes S na * (na : ℤ) ≤
      (((2 * S - na) / (2 * na) : ℕ) : ℤ) * na :=
    mul_le_mul_of_nonneg_right hN2 (Int.natCast_nonneg _)
  have hcast : ((na / 2 : ℕ) : ℤ) +
      (((2 * S - na) / (2 * na) : ℕ) : ℤ) * ((na : ℕ) : ℤ) ≤ ((S : ℕ) : ℤ) := by
    exact_mod_cast hnat
  have hhalf : (0 : ℤ) ≤ ((na / 2 : ℕ) : ℤ) := Int.natCast_nonneg _
  constructor
  · linarith
  · linarith

/-- C4 witness at the corpus parameters. -/
theorem frames_within_bounds_witness :
    Nframes 660000 1024 * 1024 ≤ (660000 : ℤ) ∧
    ((1024 / 2 : ℕ) : ℤ) + Nframes 660000 1024 * 1024 ≤ (660000 : ℤ) :=
  frames_within_bounds 660000 1024 (by decide) (by decide)

/-- C3: for every waveform and frame index `i < F`, row `i` of the aligned
reshape is `waveform[i*na : i*na+na]` and row `i` of the shifted reshape is
`waveform[na/2 + i*na : na/2 + i*na + na]`: the row-major reshape equals
direct slicing at the stated offsets. -/
theorem extract_row_eq_slice (w : List ℚ) (na F i : ℕ) (hi : i < F) :
    (extractFrames w na F 0)[i]? = some (pySlice w (i * na) (i * na + na)) ∧
    (extractFrames w na F (na / 2))[i]? =
      some (pySlice w (na / 2 + i * na) (na / 2 + i * na + na)) := by
  constructor
  · rw [extractFrames_getElem? w na F 0 i hi]
    simp [pySlice]
  · rw [extractFrames_getElem? w na F (na / 2) i hi]
    simp [pySlice]

/-- C3 witness on a concrete six-sample waveform with `na = 2`, `F = 2`. -/
theorem extract_row_eq_slice_witness :
    (extractFrames [0, 1, 2, 3, 4, 5] 2 2 0)[1]? =
      some (pySlice [0, 1, 2, 3, 4, 5] (1 * 2) (1 * 2 + 2)) ∧
    (extractFrames [0, 1, 2, 3, 4, 5] 2 2 (2 / 2))[1]? =
      some (pySlice [0, 1, 2, 3, 4, 5] (2 / 2 + 1 * 2) (2 / 2 + 1 * 2 + 2)) :=
  extract_row_eq_slice [0, 1, 2, 3, 4, 5] 2 2 1 (by decide)

/-- C9: the pipeline is deterministic — two runs over identical input with
any two draws of the per-clip verification indices produce identical
output, and every `process` call writes the slab that is a pure function
of the clip and the transform output alone. -/
theorem process_deterministic (Ngenres Nclips na F : ℕ)
    (clips : ℕ → ℕ → List ℚ) (choice1 choice2 : ℕ → ℕ → ℕ)
    (cqtFn : List ℚ → List (List ℚ))
    (hch1 : ∀ g c, choice1 g c < F) (hch2 : ∀ g c, choice2 g c < F)
    (hlen : ∀ g c, na / 2 + na * F ≤ (clips g c).length)
    (hcq : ∀ y, (storedSpectrum (cqtFn y)).length = F) :
    runPipeline Ngenres Nclips clips na F choice1 cqtFn =
      runPipeline Ngenres Nclips clips na F choice2 cqtFn ∧
    (∀ g c, processClip (clips g c) na F (choice1 g c)
        (cqtFn (clips g c)) (cqtFn ((clips g c).drop (na / 2))) =
      Except.ok ⟨chunks na F ((clips g c).take (na * F)),
        chunks na F (((clips g c).drop (na / 2)).take (na * F)),
        storedSpectrum (cqtFn (clips g c)),
        storedSpectrum (cqtFn ((clips g c).drop (na / 2)))⟩) := by
  constructor
  · unfold runPipeline
    congr 1
    funext g
    congr 1
    funext c
    rw [processClip_ok _ _ _ _ _ _ (hch1 g c) (hlen g c) (hcq _) (hcq _),
      processClip_ok _ _ _ _ _ _ (hch2 g c) (hlen g c) (hcq _) (hcq _)]
  · intro g c
    exact processClip_ok _ _ _ _ _ _ (hch1 g c) (hlen g c) (hcq _) (hcq _)

/-- C9 witness: two different verification index draws on a concrete
one-genre, one-clip corpus. -/
theorem process_deterministic_witness :
    runPipeline 1 1 (fun _ _ => [0, 1, 2, 3, 4, 5]) 2 2 (fun _ _ => 0)
        (fun _ => List.replicate 3 []) =
      runPipeline 1 1 (fun _ _ => [0, 1, 2, 3, 4, 5]) 2 2 (fun _ _ => 1)
        (fun _ => List.replicate 3 []) :=
  (process_deterministic 1 1 2 2 (fun _ _ => [0, 1, 2, 3, 4, 5])
    (fun _ _ => 0) (fun _ _ => 1) (fun _ => List.replicate 3 [])
    (by intro g c; show (0 : ℕ) < 2; decide)
    (by intro g c; show (1 : ℕ) < 2; decide)
    (by intro g c; show 2 / 2 + 2 * 2 ≤ ([0, 1, 2, 3, 4, 5] : List ℚ).length; decide)
    (by intro y; show (storedSpectrum (List.replicate 3 [])).length = 2; decide)).1

/-- C5: assuming the transform's contract (`M = floor(len/na) + 1` columns,
each of `ns = 96` bins), the code drops exactly the last column and, at the
corpus parameters, stores exactly `frame_count_used = 644` columns per
alignment, ordered by increasing time, each of length 96. -/
theorem spectral_columns_spec (cols1 cols2 : List (List ℚ))
    (h1 : cols1.length = cqtCols 660000 1024)
    (h2 : cols2.length = cqtCols (660000 - 1024 / 2) 1024)
    (hb1 : ∀ c ∈ cols1, c.length = 96)
    (hb2 : ∀ c ∈ cols2, c.length = 96) :
    cqtCols 660000 1024 = 645 ∧
    cqtCols (660000 - 1024 / 2) 1024 = 645 ∧
    (storedSpectrum cols1).length = NframesNat 660000 1024 ∧
    (storedSpectrum cols2).length = NframesNat 660000 1024 ∧
    (∀ i : ℕ, i < NframesNat 660000 1024 →
      (storedSpectrum cols1)[i]? = cols1[i]?) ∧
    (∀ i : ℕ, i < NframesNat 660000 1024 →
      (storedSpectrum cols2)[i]? = cols2[i]?) ∧
    (∀ r ∈ storedSpectrum cols1, r.length = 96) ∧
    (∀ r ∈ storedSpectrum cols2, r.length = 96) := by
  have e1 : cqtCols 660000 1024 = 645 := by decide
  have e2 : cqtCols (660000 - 1024 / 2) 1024 = 645 := by decide
  refine ⟨e1, e2, ?_, ?_, ?_, ?_, ?_, ?_⟩
  · simp only [storedSpectrum, List.length_dropLast, h1, e1, NframesNat_corpus]
  · simp only [storedSpectrum, List.length_dropLast, h2, e2, NframesNat_corpus]
  · intro i hi
    rw [NframesNat_corpus] at hi
    simp only [storedSpectrum, List.getElem?_dropLast]
    rw [if_pos (by rw [h1, e1]; omega)]
  · intro i hi
    rw [NframesNat_corpus] at hi
    simp only [storedSpectrum, List.getElem?_dropLast]
    rw [if_pos (by rw [h2, e2]; omega)]
  · exact fun r hr => hb1 r (List.dropLast_subset _ hr)
  · exact fun r hr => hb2 r (List.dropLast_subset _ hr)

/-- C5 witness on a concrete 645-column transform output. -/
theorem spectral_columns_spec_witness :
    (storedSpectrum (List.replicate 645 (List.replicate 96 (0 : ℚ)))).length =
      NframesNat 660000 1024 ∧
    (∀ r ∈ storedSpectrum (List.replicate 645 (List.replicate 96 (0 : ℚ))),
      r.length = 96) := by
  have h := spectral_columns_spec
    (List.replicate 645 (List.replicate 96 0))
    (List.replicate 645 (List.replicate 96 0))
    (by rw [List.length_replicate]; decide)
    (by rw [List.length_replicate]; decide)
    (by intro c hc; rw [List.eq_of_mem_replicate hc]; simp)
    (by intro c hc; rw [List.eq_of_mem_replicate hc]; simp)
  exact ⟨h.2.2.1, h.2.2.2.2.2.2.1⟩

/-- C6: the claim says the frame grid cell fails with
`InvalidConfiguration` whenever `samples_per_clip < na` or
`frame_count_used < 1`, before any output file is created; but at
`samples_per_clip = 512`, `na = 1024` the cell succeeds with
`frame_count_used = 0 < 1` and the output datasets are still allocated. -/
theorem gridCalc_no_validation_cex :
    gridCalc 512 1024 = Except.ok (0, 0, 0) ∧
    Nframes 512 1024 < 1 ∧
    pipelineSetup 2 3 512 1024 96 =
      Except.ok ([2, 3, 0, 2, 1024], [2, 3, 0, 2, 96]) := by
  have h1 : N1 512 1024 = 0 := by rw [N1_eq]; decide
  have h2 : N2 512 1024 = 0 := by
    rw [N2_eq 512 1024 (by decide) (by decide)]; decide
  have hg : gridCalc 512 1024 = Except.ok (0, 0, 0) := by
    unfold gridCalc
    rw [if_neg (by decide), h1, h2, Nframes_short]
  refine ⟨hg, by rw [Nframes_short]; decide, ?_⟩
  unfold pipelineSetup pipelineSetupTrace
  rw [hg]
  show allocOutput 2 3 512 1024 96 = _
  unfold allocOutput
  rw [if_neg (by rw [Nframes_short]; decide)]
  unfold NframesNat
  rw [Nframes_short]
  rfl

/-- C6 (amended): the code performs no `InvalidConfiguration` check.
For every `na > 0` the frame grid cell succeeds — even when
`samples_per_clip < na` or `frame_count_used < 1` — and the output HDF5
file is then created unconditionally. When `na ≤ 2S` (frame count
non-negative) the datasets are also allocated, invalid configuration or
not; when `2S < na` the frame count is negative and dataset creation
raises on the negative dimension — after the output file was created, not
before. Only `na = 0` makes the grid cell itself fail, with Python's
ZeroDivisionError. -/
theorem gridCalc_never_fails (Ngenres Nclips S na ns : ℕ) (h : 0 < na) :
    gridCalc S na = Except.ok (N1 S na, N2 S na, Nframes S na) ∧
    (pipelineSetupTrace Ngenres Nclips S na ns).fileCreated = true ∧
    (na ≤ 2 * S → pipelineSetup Ngenres Nclips S na ns =
      Except.ok ([Ngenres, Nclips, NframesNat S na, 2, na],
                 [Ngenres, Nclips, NframesNat S na, 2, ns])) ∧
    (2 * S < na → pipelineSetup Ngenres Nclips S na ns =
      Except.error PipeError.negativeDimension) ∧
    gridCalc 0 0 = Except.error PipeError.zeroDivision := by
  have hg : gridCalc S na = Except.ok (N1 S na, N2 S na, Nframes S na) := by
    unfold gridCalc
    rw [if_neg (Nat.pos_iff_ne_zero.mp h)]
  refine ⟨hg, ?_, ?_, ?_, rfl⟩
  · unfold pipelineSetupTrace
    rw [hg]
  · intro hle
    have h0 : 0 ≤ Nframes S na := by
      rw [Nframes, N1_eq, N2_eq S na h hle]
      exact le_min (Int.natCast_nonneg _) (Int.natCast_nonneg _)
    unfold pipelineSetup pipelineSetupTrace
    rw [hg]
    show allocOutput Ngenres Nclips S na ns = _
    unfold allocOutput
    rw [if_neg (not_lt.2 h0)]
  · intro hlt
    have hneg : Nframes S na < 0 := by
      have hna : (0 : ℚ) < (na : ℚ) := by exact_mod_cast h
      have h2 : ((2 * S : ℕ) : ℚ) < ((na : ℕ) : ℚ) := by exact_mod_cast hlt
      have hx : (S : ℚ) / na - 1/2 < ((0 : ℤ) : ℚ) := by
        rw [Int.cast_zero, sub_neg, div_lt_iff₀ hna]
        push_cast at h2
        linarith
      have hN2 : N2 S na < 0 := Int.floor_lt.2 hx
      have hmin := min_le_right (N1 S na) (N2 S na)
      rw [Nframes]
      omega
    unfold pipelineSetup pipelineSetupTrace
    rw [hg]
    show allocOutput Ngenres Nclips S na ns = _
    unfold allocOutput
    rw [if_pos hneg]

/-- C6 witness: a clip shorter than one frame still passes setup with a
zero-length frame axis, and a clip shorter than half a frame makes the
dataset allocation (not the grid cell) fail on the negative dimension. -/
theorem gridCalc_never_fails_witness :
    gridCalc 512 1024 =
      Except.ok (N1 512 1024, N2 512 1024, Nframes 512 1024) ∧
    pipelineSetup 2 3 512 1024 96 =
      Except.ok ([2, 3, NframesNat 512 1024, 2, 1024],
                 [2, 3, NframesNat 512 1024, 2, 96]) ∧
    pipelineSetup 2 3 100 1024 96 =
      Except.error PipeError.negativeDimension := by
  have ha := gridCalc_never_fails 2 3 512 1024 96 (by decide)
  have hb := gridCalc_never_fails 2 3 100 1024 96 (by decide)
  exact ⟨ha.1, ha.2.2.1 (by decide), hb.2.2.2.1 (by decide)⟩

/-- C7: the claim says a clip of exactly `na` samples must not crash —
either cleanly yielding 0 frame pairs or raising `InsufficientSamples`;
but with `na = 4` and a 4-sample clip, `frame_count_used = 0` and the
verification step indexes row 0 of an empty frame axis: `process` stops
with an IndexError, which is neither of the two allowed outcomes. -/
theorem boundary_clip_index_error_cex :
    NframesNat 4 4 = 0 ∧
    processClip [0, 0, 0, 0] 4 (NframesNat 4 4) 0 [] [] =
      Except.error ProcError.indexError := by
  have h0 : NframesNat 4 4 = 0 := by
    unfold NframesNat Nframes
    rw [N1_eq, N2_eq 4 4 (by decide) (by decide)]
    decide
  refine ⟨h0, ?_⟩
  rw [h0]
  rfl

/-- C7 (amended): a clip of exactly `na` samples yields `N1 = 1`, `N2 = 0`
and `frame_count_used = 0`, and the pipeline then crashes: the random
verification index is necessarily 0 and indexing frame 0 of the empty
frame axis raises an IndexError — there is neither a clean 0-frame yield
nor an `InsufficientSamples` error. -/
theorem boundary_clip_crashes (na : ℕ) (h : 0 < na) (y1 : List ℚ)
    (hy : y1.length = na) (cqt1 cqt2 : List (List ℚ)) :
    N1 na na = 1 ∧ N2 na na = 0 ∧ NframesNat na na = 0 ∧
    processClip y1 na (NframesNat na na) 0 cqt1 cqt2 =
      Except.error ProcError.indexError := by
  have h1 : N1 na na = 1 := by
    rw [N1_eq, Nat.div_self h]
    rfl
  have h2 : N2 na na = 0 := by
    rw [N2_eq na na h (by omega), show 2 * na - na = na by omega,
      Nat.div_eq_of_lt (by omega)]
    rfl
  have h0 : NframesNat na na = 0 := by
    unfold NframesNat Nframes
    rw [h1, h2]
    rfl
  refine ⟨h1, h2, h0, ?_⟩
  rw [h0]
  unfold processClip
  rw [if_neg (by simp)]
  simp [chunks]

/-- C7 witness: a concrete 4-sample clip with `na = 4`. -/
theorem boundary_clip_crashes_witness :
    N1 4 4 = 1 ∧ N2 4 4 = 0 ∧ NframesNat 4 4 = 0 ∧
    processClip [2, 3, 5, 7] 4 (NframesNat 4 4) 0 [] [] =
      Except.error ProcError.indexError :=
  boundary_clip_crashes 4 (by decide) [2, 3, 5, 7] (by decide) [] []

/-- C8: the conversion notebook's `read` returns exactly
`samples_per_clip = 660000` samples for every accepted input, rejects a
sample rate different from 22050, and rejects any file shorter than
660000 samples — so every stored clip has exactly 660000 samples. -/
theorem read_exact_length_and_rejects (y : List ℚ) (sr : ℕ) :
    (∀ w, read y sr = Except.ok w → w.length = gtzanNsamples) ∧
    (sr ≠ gtzanSr → read y sr = Except.error ReadError.wrongSampleRate) ∧
    (y.length < gtzanNsamples → ∀ w, read y sr ≠ Except.ok w) := by
  refine ⟨?_, ?_, ?_⟩
  · intro w hw
    by_cases hsr : sr = gtzanSr
    · by_cases hlen : y.length < gtzanNsamples
      · simp [read, hsr, hlen] at hw
      · simp [read, hsr, hlen] at hw
        rw [← hw, List.length_take]
        exact Nat.min_eq_left (Nat.le_of_not_lt hlen)
    · simp [read, hsr] at hw
  · intro hsr
    simp [read, hsr]
  · intro hlen w
    by_cases hsr : sr = gtzanSr
    · simp [read, hsr, hlen]
    · simp [read, hsr]

/-- C8 witness: a wrong sample rate is rejected. -/
theorem read_exact_length_and_rejects_witness :
    read [] 0 = Except.error ReadError.wrongSampleRate :=
  (read_exact_length_and_rejects [] 0).2.1 (by decide)

end DLAudio
